import Mathlib

/-
Verification of the session driver in examples/python_mcp_client.py.

The script is sequential glue: it builds a subprocess launch configuration
(StdioServerParameters), opens a scoped transport and session, performs a
handshake, lists the remote tools, invokes three tools with literal
arguments, and prints each textual result.

Shallow embedding: the environment is a partial map from variable names to
values; the remote side (transport plus server) is an Oracle giving the
response of each remote step; a run produces a trace of observable events
(launch, resource acquisition and release, remote requests, printed lines)
together with a final result in Except, where an error models an uncaught
Python exception propagating out of main.
-/

/-- A JSON-like argument value, as passed in the per-call argument mappings
of the source (string literals, and the float literal 0.5 modelled as a
rational). -/
inductive ArgVal where
  | str : String → ArgVal
  | num : ℚ → ArgVal
deriving DecidableEq

/-- Launch configuration, from mcp.StdioServerParameters as used at lines
16-24 of the source: command, argument list, environment mapping. -/
structure StdioServerParameters where
  command : String
  args : List String
  env : List (String × String)
deriving DecidableEq

/-- The literal default for ETH_RPC_URL (source line 20). -/
def rpcDefault : String := "https://eth.llamarpc.com"

/-- The literal default for PRIVATE_KEY (source line 21). -/
def pkDefault : String :=
  "0000000000000000000000000000000000000000000000000000000000000001"

/-- Construction of the launch configuration (source lines 16-24).
os.getenv with a default is modelled by Option.getD on the environment
map.  Note that the CHAIN_ID entry is the literal string "1": the source
does not consult the environment for it. -/
def serverParams (getenv : String → Option String) : StdioServerParameters :=
  { command := "cargo"
  , args := ["run", "--release"]
  , env :=
      [ ("ETH_RPC_URL", (getenv "ETH_RPC_URL").getD rpcDefault)
      , ("PRIVATE_KEY", (getenv "PRIVATE_KEY").getD pkDefault)
      , ("CHAIN_ID", "1") ] }

/-- A tool descriptor returned by list_tools: name and description. -/
structure Tool where
  name : String
  description : String
deriving DecidableEq

/-- One content item of a call_tool result; only its text is consumed. -/
structure ContentItem where
  text : String
deriving DecidableEq

/-- The result object of call_tool: a list of content items. -/
structure CallToolResult where
  content : List ContentItem
deriving DecidableEq

/-- Errors that can terminate the run: an exception raised by the
transport or session abstraction (opaque payload), or the IndexError
raised by result.content[0] on an empty content list. -/
inductive PyError where
  | sessionError : String → PyError
  | indexError : PyError
deriving DecidableEq

/-- A remote request issued by the driver: the handshake, the tool
listing, or a tool call with its name and argument mapping. -/
inductive Request where
  | init : Request
  | listTools : Request
  | callTool : String → List (String × ArgVal) → Request
deriving DecidableEq

/-- Observable events of one run: construction of the launch
configuration, acquisition and release of the two scoped resources
(stdio transport, client session), remote requests, and printed lines
(one event per print call; the string is the argument of print, with any
embedded newline kept). -/
inductive Event where
  | launch : StdioServerParameters → Event
  | acquireTransport : Event
  | acquireSession : Event
  | request : Request → Event
  | print : String → Event
  | releaseSession : Event
  | releaseTransport : Event
deriving DecidableEq

/-- The remote side of one run: the outcome of connecting (entering the
stdio transport), of the handshake, of the tool listing, and of each of
the three tool calls, in order.  This is exactly the sequence of remote
responses a run can observe. -/
structure Oracle where
  connect : Except PyError Unit
  handshake : Except PyError Unit
  listTools : Except PyError (List Tool)
  call1 : Except PyError CallToolResult
  call2 : Except PyError CallToolResult
  call3 : Except PyError CallToolResult

/-- The get_balance request with its literal arguments (source lines
41-46). -/
def getBalanceReq : Request :=
  Request.callTool "get_balance"
    [("address", ArgVal.str "0xd8dA6BF26964aF9D7eEd9e03E53415D37aA96045")]

/-- The get_token_price request with its literal arguments (source lines
51-57). -/
def getTokenPriceReq : Request :=
  Request.callTool "get_token_price"
    [ ("token_address", ArgVal.str "0x1f9840a85d5aF5bf1D1762F925BDADdC4201F984")
    , ("quote_currency", ArgVal.str "USD") ]

/-- The swap_tokens request with its literal arguments (source lines
62-70); the float literal 0.5 is the rational 1/2. -/
def swapTokensReq : Request :=
  Request.callTool "swap_tokens"
    [ ("from_token", ArgVal.str "0xC02aaA39b223FE8D0A0e5C4F27eAD9083C756Cc2")
    , ("to_token", ArgVal.str "0xA0b86991c6218b36c1d19D4a2e9Eb0cE3606eB48")
    , ("amount", ArgVal.str "1.0")
    , ("slippage_tolerance", ArgVal.num (1 / 2)) ]

/-- Printed on successful handshake (source line 30; the source string
ends in a newline). -/
def connectedLine : String := "✅ Connected to Ethereum Trading MCP Server\n"

/-- Header of the tool listing (source line 34). -/
def toolsHeader : String := "📋 Available tools:"

/-- The line printed for one tool (source line 36). -/
def toolLine (t : Tool) : String := "  - " ++ t.name ++ ": " ++ t.description

/-- Label printed before the first call (source line 40). -/
def balanceLabel : String := "🔍 Getting ETH balance..."

/-- Label printed before the second call (source line 50). -/
def priceLabel : String := "💰 Getting UNI token price in USD..."

/-- Label printed before the third call (source line 61). -/
def swapLabel : String := "🔄 Simulating token swap (1 WETH -> USDC)..."

/-- The line printed for a call result (source lines 47, 58, 71):
print of an f-string whose embedded newline is kept. -/
def resultLine (s : String) : String := "Result: " ++ s ++ "\n"

/-- The body of the two with-blocks (source lines 29-71): handshake,
print the connected line; list tools, print header, one line per tool
and a blank line; then the three calls, each preceded by its label, each
result printed via content[0].text, which raises IndexError when the
content list is empty.  An error anywhere stops the body at that point;
the trace accumulated so far is returned with it. -/
def sessionBody (o : Oracle) : List Event × Except PyError Unit :=
  match o.handshake with
  | .error e => ([Event.request Request.init], .error e)
  | .ok _ =>
    match o.listTools with
    | .error e =>
        ([Event.request Request.init, Event.print connectedLine,
          Event.request Request.listTools], .error e)
    | .ok tools =>
      let preCalls : List Event :=
        Event.request Request.init :: Event.print connectedLine ::
          Event.request Request.listTools :: Event.print toolsHeader ::
          ((tools.map fun t => Event.print (toolLine t)) ++
            (Event.print "" :: Event.print balanceLabel ::
              Event.request getBalanceReq :: []))
      match o.call1 with
      | .error e => (preCalls, .error e)
      | .ok result =>
        match result.content with
        | [] => (preCalls, .error PyError.indexError)
        | c :: _ =>
          let pre2 : List Event :=
            preCalls ++ [Event.print (resultLine c.text),
              Event.print priceLabel, Event.request getTokenPriceReq]
          match o.call2 with
          | .error e => (pre2, .error e)
          | .ok result2 =>
            match result2.content with
            | [] => (pre2, .error PyError.indexError)
            | c2 :: _ =>
              let pre3 : List Event :=
                pre2 ++ [Event.print (resultLine c2.text),
                  Event.print swapLabel, Event.request swapTokensReq]
              match o.call3 with
              | .error e => (pre3, .error e)
              | .ok result3 =>
                match result3.content with
                | [] => (pre3, .error PyError.indexError)
                | c3 :: _ =>
                    (pre3 ++ [Event.print (resultLine c3.text)], .ok ())

/-- One whole run of main (source lines 14-71): build the launch
configuration, enter the stdio transport (which can fail), enter the
session, run the body, and - as the two with-blocks guarantee - release
the session and then the transport on every exit path of the body,
re-raising any error of the body unchanged. -/
def mainRun (getenv : String → Option String) (o : Oracle) :
    List Event × Except PyError Unit :=
  let params := serverParams getenv
  match o.connect with
  | .error e => ([Event.launch params], .error e)
  | .ok _ =>
      (Event.launch params :: Event.acquireTransport :: Event.acquireSession ::
        ((sessionBody o).1 ++ [Event.releaseSession, Event.releaseTransport]),
       (sessionBody o).2)

/-- Projection: the request carried by an event, if any. -/
def reqOf : Event → Option Request
  | Event.request r => some r
  | _ => none

/-- Projection: the string printed by an event, if any. -/
def lineOf : Event → Option String
  | Event.print s => some s
  | _ => none

/-- Whether a request is a tool call. -/
def isCall : Request → Bool
  | Request.callTool _ _ => true
  | _ => false

/-- Whether an event releases the session. -/
def isRelSession : Event → Bool
  | Event.releaseSession => true
  | _ => false

/-- Whether an event releases the transport. -/
def isRelTransport : Event → Bool
  | Event.releaseTransport => true
  | _ => false

/-- The remote requests issued in a trace, in order. -/
def requestsOf (evs : List Event) : List Request := evs.filterMap reqOf

/-- The printed lines of a trace, in order. -/
def printedLines (evs : List Event) : List String := evs.filterMap lineOf

/-- The tool-call requests issued in a trace, in order. -/
def callRequests (evs : List Event) : List Request :=
  (requestsOf evs).filter isCall

/-- Updating the environment at one variable. -/
def envSet (getenv : String → Option String) (n v : String) :
    String → Option String :=
  fun m => if m = n then some v else getenv m

/-- The empty environment: every variable is absent. -/
def emptyEnv : String → Option String := fun _ => none

/-- The mock collaborator of the end-to-end scenario: successful connect
and handshake, tool list [(get_balance, x)], and canned first text
contents 1.5 ETH, 7.23 USD, ok for the three calls. -/
def demoOracle : Oracle :=
  { connect := .ok ()
  , handshake := .ok ()
  , listTools := .ok [{ name := "get_balance", description := "x" }]
  , call1 := .ok { content := [{ text := "1.5 ETH" }] }
  , call2 := .ok { content := [{ text := "7.23 USD" }] }
  , call3 := .ok { content := [{ text := "ok" }] } }

/-- An oracle whose handshake step fails; later steps are never reached. -/
def failHandshakeOracle : Oracle :=
  { demoOracle with handshake := .error (PyError.sessionError "boom") }

/-- An oracle whose first tool call fails. -/
def failCall1Oracle : Oracle :=
  { demoOracle with call1 := .error (PyError.sessionError "boom") }

/-- An oracle whose third tool call fails. -/
def failCall3Oracle : Oracle :=
  { demoOracle with call3 := .error (PyError.sessionError "rpc down") }

/-- An oracle whose first call returns a result with an empty content
list. -/
def emptyContentOracle : Oracle :=
  { demoOracle with call1 := .ok { content := [] } }

/-- An oracle returning an empty tool list. -/
def noToolsOracle : Oracle :=
  { demoOracle with listTools := .ok [] }

@[simp]
lemma requestsOf_toolPrints (ts : List Tool) :
    requestsOf (ts.map fun t => Event.print (toolLine t)) = [] := by
  induction ts with
  | nil => rfl
  | cons t ts ih => simp [requestsOf, reqOf, ih]

@[simp]
lemma printedLines_toolPrints (ts : List Tool) :
    printedLines (ts.map fun t => Event.print (toolLine t)) = ts.map toolLine := by
  induction ts with
  | nil => rfl
  | cons t ts ih => simpa [printedLines, lineOf] using ih

@[simp]
lemma filterMap_lineOf_toolPrints (ts : List Tool) :
    List.filterMap (lineOf ∘ fun t => Event.print (toolLine t)) ts =
      ts.map toolLine := by
  induction ts with
  | nil => rfl
  | cons t ts ih => simp [lineOf, ih, Function.comp]

@[simp]
lemma filterMap_reqOf_toolPrints (ts : List Tool) :
    List.filterMap (reqOf ∘ fun t => Event.print (toolLine t)) ts = [] := by
  induction ts with
  | nil => rfl
  | cons t ts ih => simp [reqOf, ih, Function.comp]

@[simp]
lemma countP_relSession_toolPrints (ts : List Tool) :
    (ts.map fun t => Event.print (toolLine t)).countP isRelSession = 0 := by
  induction ts with
  | nil => rfl
  | cons t ts ih => simp [List.countP_cons, isRelSession, ih]

@[simp]
lemma countP_relTransport_toolPrints (ts : List Tool) :
    (ts.map fun t => Event.print (toolLine t)).countP isRelTransport = 0 := by
  induction ts with
  | nil => rfl
  | cons t ts ih => simp [List.countP_cons, isRelTransport, ih]

/-- C2 counterexample: with the chain-id environment variable set to "5",
the launch configuration still embeds the literal chain id "1" (source
line 22 does not read the environment), so the claimed override has no
effect. -/
theorem claim_C2_counterexample :
    (serverParams (envSet emptyEnv "CHAIN_ID" "5")).env.lookup "CHAIN_ID" = some "1"
    ∧ ("1" : String) ≠ "5" := by
  constructor
  · rfl
  · decide

/-- C2 (amended): setting the RPC-URL or private-key environment variable
changes exactly the corresponding entry of the launch configuration and
nothing else, and each of these two falls back to its literal default
when absent; the chain id embedded in the launch configuration is always
the literal "1", and setting a chain-id environment variable changes
nothing at all. -/
theorem claim_C2 :
    (∀ g v, (serverParams (envSet g "ETH_RPC_URL" v)).env =
        [("ETH_RPC_URL", v),
         ("PRIVATE_KEY", (g "PRIVATE_KEY").getD pkDefault),
         ("CHAIN_ID", "1")])
    ∧ (∀ g v, (serverParams (envSet g "PRIVATE_KEY" v)).env =
        [("ETH_RPC_URL", (g "ETH_RPC_URL").getD rpcDefault),
         ("PRIVATE_KEY", v),
         ("CHAIN_ID", "1")])
    ∧ (∀ g v, serverParams (envSet g "CHAIN_ID" v) = serverParams g)
    ∧ ((serverParams emptyEnv).env =
        [("ETH_RPC_URL", rpcDefault), ("PRIVATE_KEY", pkDefault),
         ("CHAIN_ID", "1")])
    ∧ (∀ g, (serverParams g).command = "cargo"
        ∧ (serverParams g).args = ["run", "--release"]) := by
  refine ⟨?_, ?_, ?_, ?_, ?_⟩
  · intro g v; simp [serverParams, envSet]
  · intro g v; simp [serverParams, envSet]
  · intro g v; simp [serverParams, envSet]
  · rfl
  · intro g; exact ⟨rfl, rfl⟩

/-- C7: for every environment, the launch configuration has the fixed
command "cargo" and fixed argument list ["run", "--release"]; its
environment mapping has exactly the three entries ETH_RPC_URL,
PRIVATE_KEY and CHAIN_ID in that order; the chain id embedded is the
numeric string "1"; and the default private key (environment absent) is
a 64-character hex string. -/
theorem claim_C7 (g : String → Option String) :
    (serverParams g).command = "cargo"
    ∧ (serverParams g).args = ["run", "--release"]
    ∧ (serverParams g).env.map Prod.fst = ["ETH_RPC_URL", "PRIVATE_KEY", "CHAIN_ID"]
    ∧ (serverParams g).env.length = 3
    ∧ (serverParams g).env.lookup "CHAIN_ID" = some "1"
    ∧ "1".toList.all Char.isDigit = true
    ∧ (serverParams emptyEnv).env.lookup "PRIVATE_KEY" = some pkDefault
    ∧ pkDefault.length = 64
    ∧ pkDefault.toList.all
        (fun c => c.isDigit || "abcdef".contains c || "ABCDEF".contains c) = true := by
  refine ⟨rfl, rfl, rfl, rfl, rfl, by decide, rfl, by decide, by decide⟩

/-- C8: on the end-to-end scenario oracle (tool list [(get_balance, x)],
canned first text contents "1.5 ETH", "7.23 USD", "ok"), the complete
printed output is exactly the list below, in which each of the three
literal result strings appears, in order, immediately preceded by its
corresponding label line; and the run completes normally. -/
theorem claim_C8 :
    printedLines (mainRun emptyEnv demoOracle).1 =
      [connectedLine, toolsHeader, "  - get_balance: x", "",
       balanceLabel, "Result: 1.5 ETH\n",
       priceLabel, "Result: 7.23 USD\n",
       swapLabel, "Result: ok\n"]
    ∧ (mainRun emptyEnv demoOracle).2 = .ok () := by
  constructor <;> rfl

/-- C10: the driver is deterministic: two runs with the same environment
and the same sequence of remote responses construct the same launch
configuration, and produce the same trace (hence the same requests and
the same printed output) and the same final result. -/
theorem claim_C10 (g1 g2 : String → Option String) (o1 o2 : Oracle)
    (hg : g1 = g2) (ho : o1 = o2) :
    serverParams g1 = serverParams g2 ∧ mainRun g1 o1 = mainRun g2 o2 := by
  subst hg; subst ho; exact ⟨rfl, rfl⟩

/-- C10 witness: the determinism theorem applied at the empty environment
and the demonstration oracle. -/
theorem claim_C10_witness :
    serverParams emptyEnv = serverParams emptyEnv
    ∧ mainRun emptyEnv demoOracle = mainRun emptyEnv demoOracle :=
  claim_C10 emptyEnv emptyEnv demoOracle demoOracle rfl rfl

/-- C3: in every run whose connect step succeeds but whose handshake step
fails, the only remote request ever issued is the handshake itself: no
tool-listing request and no tool-call request follows, and the run
terminates with the handshake error. -/
theorem claim_C3 (g : String → Option String) (o : Oracle) (e : PyError)
    (hc : o.connect = .ok ()) (hh : o.handshake = .error e) :
    requestsOf (mainRun g o).1 = [Request.init]
    ∧ (mainRun g o).2 = .error e := by
  constructor
  · simp [mainRun, sessionBody, hc, hh, requestsOf, reqOf]
  · simp [mainRun, sessionBody, hc, hh]

/-- C3 witness: the theorem applied to a concrete oracle whose handshake
fails. -/
theorem claim_C3_witness :
    requestsOf (mainRun emptyEnv failHandshakeOracle).1 = [Request.init]
    ∧ (mainRun emptyEnv failHandshakeOracle).2 =
        .error (PyError.sessionError "boom") :=
  claim_C3 emptyEnv failHandshakeOracle (PyError.sessionError "boom") rfl rfl

/-- C5: every error raised by the transport/session abstraction - at the
connect step, the handshake, the tool listing, or any of the three tool
calls - propagates out of the run unchanged: the run's final result is
exactly that error, neither caught, retried, nor transformed. -/
theorem claim_C5 (g : String → Option String) (o : Oracle) (e : PyError) :
    (o.connect = .error e → (mainRun g o).2 = .error e)
    ∧ (o.connect = .ok () → o.handshake = .error e →
        (mainRun g o).2 = .error e)
    ∧ (o.connect = .ok () → o.handshake = .ok () → o.listTools = .error e →
        (mainRun g o).2 = .error e)
    ∧ (∀ ts, o.connect = .ok () → o.handshake = .ok () →
        o.listTools = .ok ts → o.call1 = .error e →
        (mainRun g o).2 = .error e)
    ∧ (∀ ts r1 c1 l1, o.connect = .ok () → o.handshake = .ok () →
        o.listTools = .ok ts → o.call1 = .ok r1 → r1.content = c1 :: l1 →
        o.call2 = .error e → (mainRun g o).2 = .error e)
    ∧ (∀ ts r1 c1 l1 r2 c2 l2, o.connect = .ok () → o.handshake = .ok () →
        o.listTools = .ok ts → o.call1 = .ok r1 → r1.content = c1 :: l1 →
        o.call2 = .ok r2 → r2.content = c2 :: l2 → o.call3 = .error e →
        (mainRun g o).2 = .error e) := by
  refine ⟨?_, ?_, ?_, ?_, ?_, ?_⟩ <;>
    intros <;> simp [mainRun, sessionBody, *]

/-- C5 witness: the theorem applied to a concrete oracle whose third tool
call fails; the run's result is exactly that error. -/
theorem claim_C5_witness :
    (mainRun emptyEnv failCall3Oracle).2 =
      .error (PyError.sessionError "rpc down") :=
  (claim_C5 emptyEnv failCall3Oracle (PyError.sessionError "rpc down")).2.2.2.2.2
    [{ name := "get_balance", description := "x" }]
    { content := [{ text := "1.5 ETH" }] } { text := "1.5 ETH" } []
    { content := [{ text := "7.23 USD" }] } { text := "7.23 USD" } []
    rfl rfl rfl rfl rfl rfl rfl rfl

/-- C9: whenever one of the three tool calls returns a result whose
content list is empty, reading content[0] raises IndexError: the run
terminates with that error and nothing is printed for that call - the
printed output ends with the label line of the failing call (after the
results of the earlier calls, if any).  Printing the result of a call
thus succeeds only when the content list of its response is non-empty. -/
theorem claim_C9 (g : String → Option String) (o : Oracle) :
    (∀ ts r1, o.connect = .ok () → o.handshake = .ok () →
        o.listTools = .ok ts → o.call1 = .ok r1 → r1.content = [] →
        (mainRun g o).2 = .error PyError.indexError
        ∧ printedLines (mainRun g o).1 =
            connectedLine :: toolsHeader ::
              (ts.map toolLine ++ ["", balanceLabel]))
    ∧ (∀ ts r1 c1 l1 r2, o.connect = .ok () → o.handshake = .ok () →
        o.listTools = .ok ts → o.call1 = .ok r1 → r1.content = c1 :: l1 →
        o.call2 = .ok r2 → r2.content = [] →
        (mainRun g o).2 = .error PyError.indexError
        ∧ printedLines (mainRun g o).1 =
            connectedLine :: toolsHeader ::
              (ts.map toolLine ++
                ["", balanceLabel, resultLine c1.text, priceLabel]))
    ∧ (∀ ts r1 c1 l1 r2 c2 l2 r3, o.connect = .ok () → o.handshake = .ok () →
        o.listTools = .ok ts → o.call1 = .ok r1 → r1.content = c1 :: l1 →
        o.call2 = .ok r2 → r2.content = c2 :: l2 →
        o.call3 = .ok r3 → r3.content = [] →
        (mainRun g o).2 = .error PyError.indexError
        ∧ printedLines (mainRun g o).1 =
            connectedLine :: toolsHeader ::
              (ts.map toolLine ++
                ["", balanceLabel, resultLine c1.text,
                 priceLabel, resultLine c2.text, swapLabel])) := by
  refine ⟨?_, ?_, ?_⟩ <;>
    intros <;> constructor <;>
    simp [mainRun, sessionBody, printedLines, lineOf, *]

/-- C9 witness: the theorem applied to a concrete oracle whose first call
returns an empty content list: the run ends in IndexError and the output
stops at the first call's label line. -/
theorem claim_C9_witness :
    (mainRun emptyEnv emptyContentOracle).2 = .error PyError.indexError
    ∧ printedLines (mainRun emptyEnv emptyContentOracle).1 =
        connectedLine :: toolsHeader ::
          (([{ name := "get_balance", description := "x" }] : List Tool).map toolLine
            ++ ["", balanceLabel]) :=
  (claim_C9 emptyEnv emptyContentOracle).1
    [{ name := "get_balance", description := "x" }] { content := [] }
    rfl rfl rfl rfl rfl

@[simp]
lemma countP_relSession_comp (ts : List Tool) :
    ts.countP (isRelSession ∘ fun t => Event.print (toolLine t)) = 0 := by
  induction ts with
  | nil => rfl
  | cons t ts ih => simp [isRelSession, ih, Function.comp]

@[simp]
lemma countP_relTransport_comp (ts : List Tool) :
    ts.countP (isRelTransport ∘ fun t => Event.print (toolLine t)) = 0 := by
  induction ts with
  | nil => rfl
  | cons t ts ih => simp [isRelTransport, ih, Function.comp]

/-- The body of the two with-blocks never emits a release event itself:
releases happen only in the wrapper, once each. -/
lemma sessionBody_no_release (o : Oracle) :
    (sessionBody o).1.countP isRelSession = 0
    ∧ (sessionBody o).1.countP isRelTransport = 0 := by
  rcases hh : o.handshake with eh | uh
  · simp [sessionBody, hh, isRelSession, isRelTransport]
  · rcases hl : o.listTools with el | ts
    · simp [sessionBody, hh, hl, isRelSession, isRelTransport]
    · rcases h1 : o.call1 with e1 | ⟨cont1⟩
      · simp [sessionBody, hh, hl, h1, isRelSession, isRelTransport]
      · rcases cont1 with _ | ⟨c1, l1⟩
        · simp [sessionBody, hh, hl, h1, isRelSession, isRelTransport]
        · rcases h2 : o.call2 with e2 | ⟨cont2⟩
          · simp [sessionBody, hh, hl, h1, h2, isRelSession, isRelTransport]
          · rcases cont2 with _ | ⟨c2, l2⟩
            · simp [sessionBody, hh, hl, h1, h2, isRelSession, isRelTransport]
            · rcases h3 : o.call3 with e3 | ⟨cont3⟩
              · simp [sessionBody, hh, hl, h1, h2, h3,
                  isRelSession, isRelTransport]
              · rcases cont3 with _ | ⟨c3, l3⟩
                · simp [sessionBody, hh, hl, h1, h2, h3,
                    isRelSession, isRelTransport]
                · simp [sessionBody, hh, hl, h1, h2, h3,
                    isRelSession, isRelTransport]

/-- C4: in every run whose connect step succeeds (the scoped resources
are acquired), the session and the transport are each released exactly
once, whatever the outcome of the handshake, the tool listing, and the
three tool calls - normal completion or an error at any step. -/
theorem claim_C4 (g : String → Option String) (o : Oracle)
    (hc : o.connect = .ok ()) :
    (mainRun g o).1.countP isRelSession = 1
    ∧ (mainRun g o).1.countP isRelTransport = 1 := by
  have h := sessionBody_no_release o
  constructor
  · simp [mainRun, hc, List.countP_cons, isRelSession, isRelTransport, h.1]
  · simp [mainRun, hc, List.countP_cons, isRelSession, isRelTransport, h.2]

/-- C4 witness: the theorem applied to a concrete failing run (handshake
error): both resources are still released exactly once. -/
theorem claim_C4_witness :
    (mainRun emptyEnv failHandshakeOracle).1.countP isRelSession = 1
    ∧ (mainRun emptyEnv failHandshakeOracle).1.countP isRelTransport = 1 :=
  claim_C4 emptyEnv failHandshakeOracle rfl

/-- C6: for every tool list returned by the remote side, including the
empty list, the tool-listing step prints the header followed by exactly
one line per tool, each line built from that tool's name and description
(and a separating blank line), and the run never fails there: whatever
the tool list, the driver goes on to print the first call's label and to
issue the first tool-call request. -/
theorem claim_C6 (g : String → Option String) (o : Oracle) (ts : List Tool)
    (hc : o.connect = .ok ()) (hh : o.handshake = .ok ())
    (hl : o.listTools = .ok ts) :
    (∃ rest, printedLines (mainRun g o).1 =
        connectedLine :: toolsHeader ::
          (ts.map toolLine ++ ("" :: balanceLabel :: rest)))
    ∧ (∃ more, requestsOf (mainRun g o).1 =
        Request.init :: Request.listTools :: getBalanceReq :: more) := by
  rcases h1 : o.call1 with e1 | ⟨cont1⟩
  · exact ⟨⟨[], by simp [mainRun, sessionBody, printedLines, lineOf, hc, hh, hl, h1]⟩,
      ⟨[], by simp [mainRun, sessionBody, requestsOf, reqOf, hc, hh, hl, h1]⟩⟩
  · rcases cont1 with _ | ⟨c1, l1⟩
    · exact ⟨⟨[], by simp [mainRun, sessionBody, printedLines, lineOf, hc, hh, hl, h1]⟩,
        ⟨[], by simp [mainRun, sessionBody, requestsOf, reqOf, hc, hh, hl, h1]⟩⟩
    · rcases h2 : o.call2 with e2 | ⟨cont2⟩
      · exact ⟨⟨[resultLine c1.text, priceLabel],
          by simp [mainRun, sessionBody, printedLines, lineOf, hc, hh, hl, h1, h2]⟩,
          ⟨[getTokenPriceReq],
          by simp [mainRun, sessionBody, requestsOf, reqOf, hc, hh, hl, h1, h2]⟩⟩
      · rcases cont2 with _ | ⟨c2, l2⟩
        · exact ⟨⟨[resultLine c1.text, priceLabel],
            by simp [mainRun, sessionBody, printedLines, lineOf, hc, hh, hl, h1, h2]⟩,
            ⟨[getTokenPriceReq],
            by simp [mainRun, sessionBody, requestsOf, reqOf, hc, hh, hl, h1, h2]⟩⟩
        · rcases h3 : o.call3 with e3 | ⟨cont3⟩
          · exact ⟨⟨[resultLine c1.text, priceLabel, resultLine c2.text, swapLabel],
              by simp [mainRun, sessionBody, printedLines, lineOf,
                hc, hh, hl, h1, h2, h3]⟩,
              ⟨[getTokenPriceReq, swapTokensReq],
              by simp [mainRun, sessionBody, requestsOf, reqOf,
                hc, hh, hl, h1, h2, h3]⟩⟩
          · rcases cont3 with _ | ⟨c3, l3⟩
            · exact ⟨⟨[resultLine c1.text, priceLabel, resultLine c2.text, swapLabel],
                by simp [mainRun, sessionBody, printedLines, lineOf,
                  hc, hh, hl, h1, h2, h3]⟩,
                ⟨[getTokenPriceReq, swapTokensReq],
                by simp [mainRun, sessionBody, requestsOf, reqOf,
                  hc, hh, hl, h1, h2, h3]⟩⟩
            · exact ⟨⟨[resultLine c1.text, priceLabel, resultLine c2.text,
                  swapLabel, resultLine c3.text],
                by simp [mainRun, sessionBody, printedLines, lineOf,
                  hc, hh, hl, h1, h2, h3]⟩,
                ⟨[getTokenPriceReq, swapTokensReq],
                by simp [mainRun, sessionBody, requestsOf, reqOf,
                  hc, hh, hl, h1, h2, h3]⟩⟩

/-- C6 witness: the theorem applied to a concrete oracle returning the
empty tool list: the listing prints only the header (and the blank
line), and the run still proceeds to the first tool call. -/
theorem claim_C6_witness :
    (∃ rest, printedLines (mainRun emptyEnv noToolsOracle).1 =
        connectedLine :: toolsHeader ::
          (([] : List Tool).map toolLine ++ ("" :: balanceLabel :: rest)))
    ∧ (∃ more, requestsOf (mainRun emptyEnv noToolsOracle).1 =
        Request.init :: Request.listTools :: getBalanceReq :: more) :=
  claim_C6 emptyEnv noToolsOracle [] rfl rfl rfl

@[simp]
lemma isCall_getBalanceReq : isCall getBalanceReq = true := rfl

@[simp]
lemma isCall_getTokenPriceReq : isCall getTokenPriceReq = true := rfl

@[simp]
lemma isCall_swapTokensReq : isCall swapTokensReq = true := rfl

@[simp]
lemma isCall_init : isCall Request.init = false := rfl

@[simp]
lemma isCall_listTools : isCall Request.listTools = false := rfl

/-- C1 counterexample: a run that reaches the tool-invocation phase (the
get_balance request is issued) but in which the first tool call fails:
only one remote tool invocation is made, not three, so the claim's
"exactly three invocations in every run reaching the tool-invocation
phase, for every possible sequence of remote responses" is false. -/
theorem claim_C1_counterexample :
    getBalanceReq ∈ requestsOf (mainRun emptyEnv failCall1Oracle).1
    ∧ callRequests (mainRun emptyEnv failCall1Oracle).1 = [getBalanceReq]
    ∧ ([getBalanceReq] : List Request) ≠
        [getBalanceReq, getTokenPriceReq, swapTokensReq] := by
  refine ⟨?_, ?_, ?_⟩
  · decide
  · decide
  · decide

/-- C1 (amended): in every run, the sequence of tool-call requests issued
is a prefix of the fixed three-request sequence - get_balance,
get_token_price, swap_tokens, each with exactly the literal argument
mapping of the source, with no data from any response flowing into any
argument (the requests are fixed values) - and in every run that
completes normally all three are issued, in that order. -/
theorem claim_C1 (g : String → Option String) (o : Oracle) :
    (∃ rest, [getBalanceReq, getTokenPriceReq, swapTokensReq] =
        callRequests (mainRun g o).1 ++ rest)
    ∧ ((mainRun g o).2 = .ok () →
        callRequests (mainRun g o).1 =
          [getBalanceReq, getTokenPriceReq, swapTokensReq]) := by
  rcases hc : o.connect with ec | u
  · constructor
    · exact ⟨[getBalanceReq, getTokenPriceReq, swapTokensReq],
        by simp [mainRun, callRequests, requestsOf, reqOf, hc]⟩
    · intro hok; simp [mainRun, hc] at hok
  · rcases hh : o.handshake with eh | uh
    · constructor
      · exact ⟨[getBalanceReq, getTokenPriceReq, swapTokensReq],
          by simp [mainRun, sessionBody, callRequests, requestsOf, reqOf, hc, hh]⟩
      · intro hok; simp [mainRun, sessionBody, hc, hh] at hok
    · rcases hl : o.listTools with el | ts
      · constructor
        · exact ⟨[getBalanceReq, getTokenPriceReq, swapTokensReq],
            by simp [mainRun, sessionBody, callRequests, requestsOf, reqOf,
              hc, hh, hl]⟩
        · intro hok; simp [mainRun, sessionBody, hc, hh, hl] at hok
      · rcases h1 : o.call1 with e1 | ⟨cont1⟩
        · constructor
          · exact ⟨[getTokenPriceReq, swapTokensReq],
              by simp [mainRun, sessionBody, callRequests, requestsOf, reqOf,
                hc, hh, hl, h1]⟩
          · intro hok; simp [mainRun, sessionBody, hc, hh, hl, h1] at hok
        · rcases cont1 with _ | ⟨c1, l1⟩
          · constructor
            · exact ⟨[getTokenPriceReq, swapTokensReq],
                by simp [mainRun, sessionBody, callRequests, requestsOf, reqOf,
                  hc, hh, hl, h1]⟩
            · intro hok; simp [mainRun, sessionBody, hc, hh, hl, h1] at hok
          · rcases h2 : o.call2 with e2 | ⟨cont2⟩
            · constructor
              · exact ⟨[swapTokensReq],
                  by simp [mainRun, sessionBody, callRequests, requestsOf, reqOf,
                    hc, hh, hl, h1, h2]⟩
              · intro hok; simp [mainRun, sessionBody, hc, hh, hl, h1, h2] at hok
            · rcases cont2 with _ | ⟨c2, l2⟩
              · constructor
                · exact ⟨[swapTokensReq],
                    by simp [mainRun, sessionBody, callRequests, requestsOf, reqOf,
                      hc, hh, hl, h1, h2]⟩
                · intro hok; simp [mainRun, sessionBody, hc, hh, hl, h1, h2] at hok
              · rcases h3 : o.call3 with e3 | ⟨cont3⟩
                · constructor
                  · exact ⟨[],
                      by simp [mainRun, sessionBody, callRequests, requestsOf,
                        reqOf, hc, hh, hl, h1, h2, h3]⟩
                  · intro hok
                    simp [mainRun, sessionBody, hc, hh, hl, h1, h2, h3] at hok
                · rcases cont3 with _ | ⟨c3, l3⟩
                  · constructor
                    · exact ⟨[],
                        by simp [mainRun, sessionBody, callRequests, requestsOf,
                          reqOf, hc, hh, hl, h1, h2, h3]⟩
                    · intro hok
                      simp [mainRun, sessionBody, hc, hh, hl, h1, h2, h3] at hok
                  · constructor
                    · exact ⟨[],
                        by simp [mainRun, sessionBody, callRequests, requestsOf,
                          reqOf, hc, hh, hl, h1, h2, h3]⟩
                    · intro hok
                      simp [mainRun, sessionBody, callRequests, requestsOf,
                        reqOf, hc, hh, hl, h1, h2, h3]

/-- C1 witness: on the demonstration oracle, whose run completes
normally, exactly the three fixed tool-call requests are issued, in
order. -/
theorem claim_C1_witness :
    callRequests (mainRun emptyEnv demoOracle).1 =
      [getBalanceReq, getTokenPriceReq, swapTokensReq] :=
  (claim_C1 emptyEnv demoOracle).2 rfl
